import Mathlib

/-!
Verification of the Chute client connection core against its specification.

Shallow embedding of the Go sources: pure fragments become Lean functions,
the stateful session becomes an explicit state type with a step relation,
byte strings become `List Char` (the ids and protocol lines in scope are
ASCII, where Go's byte indexing and Lean's character indexing agree).
-/

namespace Chute

/-! ## Data model (backend/rendezvous.go, rendezvous.go) -/

/-- `IceInfo` from backend/rendezvous.go: credentials plus opaque candidates. -/
structure IceInfo where
  id : String
  ufrag : String
  password : String
  candidates : List String
deriving Repr, DecidableEq

/-- `PeerEndpoint` from rendezvous.go. -/
structure PeerEndpoint where
  ip : String
  port : Nat
deriving Repr, DecidableEq

/-! ## Role election (connection_manager.go / part_000, `startICE`)

Both connection-manager variants decide the ICE role and the stream role
with the literal comparison `m.localID < targetID` (Go byte-lexicographic
string comparison; Lean's `String` order is lexicographic on characters and
agrees on the ASCII ids in scope). -/

/-- ICE agent role chosen in `startICE`: `agent.Dial` vs `agent.Accept`. -/
inductive IceRole where
  | dial
  | accept
deriving Repr, DecidableEq

/-- `if m.localID < targetID { agent.Dial ... } else { agent.Accept ... }`. -/
def iceRole (localID targetID : String) : IceRole :=
  if localID < targetID then .dial else .accept

/-- `isInitiator := m.localID < targetID` in `startICE`; the same predicate
also selects dial-side handshake vs the session accept loop. -/
def isInitiator (localID targetID : String) : Bool :=
  localID < targetID

/-! ## Client id formatting and UI input sanitization
(backend/client_id.go `formatClientID`, app/app.go `Connect`,
backend/ui_server.go `handleConnect`) -/

/-- `formatClientID` from backend/client_id.go: a 9-character id is displayed
as three groups of three separated by single spaces; anything else is
returned unchanged. -/
def formatClientID (id : String) : String :=
  if id.length ≠ 9 then id
  else
    String.mk (id.data.take 3) ++ " " ++ String.mk ((id.data.drop 3).take 3)
      ++ " " ++ String.mk (id.data.drop 6)

/-- Go `strings.TrimSpace`: drop leading and trailing whitespace. -/
def trimChars (cs : List Char) : List Char :=
  ((cs.dropWhile Char.isWhitespace).reverse.dropWhile Char.isWhitespace).reverse

/-- The sanitization pipeline shared by app/app.go `Connect` and
backend/ui_server.go `handleConnect`:
`strings.ReplaceAll(strings.TrimSpace(targetID), " ", "")`. -/
def sanitizeTargetID (raw : String) : String :=
  String.mk ((trimChars raw.data).filter (fun c => c != ' '))

/-- Result of the validation phase of app/app.go `Connect` (the Wails/Tauri
binding): either the sanitized target id is handed to `manager.Connect`,
or the call is rejected with `missing target id`. -/
inductive AppConnectCheck where
  | proceed (target : String)
  | errMissingTarget
deriving Repr, DecidableEq

/-- Validation phase of app/app.go `Connect` (lines 95-114): sanitize, then
reject only the empty id. There is no comparison against the client's own
id; `clientID` is never consulted. -/
def appConnectCheck (clientID raw : String) : AppConnectCheck :=
  let targetID := sanitizeTargetID raw
  if targetID = "" then .errMissingTarget else .proceed targetID

/-- Result of the validation phase of backend/ui_server.go `handleConnect`. -/
inductive UiConnectCheck where
  | proceed (target : String)
  | badRequestEmpty
  | badRequestSelf
deriving Repr, DecidableEq

/-- Validation phase of backend/ui_server.go `handleConnect` (lines 121-144):
sanitize, reject empty, reject the client's own id. -/
def handleConnectCheck (clientID raw : String) : UiConnectCheck :=
  let targetID := sanitizeTargetID raw
  if targetID = "" then .badRequestEmpty
  else if targetID = clientID then .badRequestSelf
  else .proceed targetID

/-! ## Receive queue (part_005, `NewChuteSession` and `readLoop`)

`NewChuteSession` creates `make(chan []byte, 16)`; `readLoop` enqueues with
`select { case ch <- msg: default: }`, i.e. a non-blocking send that drops
the arriving message when the buffer is full. The buffered channel is
modelled as a list bounded by its capacity; the `default` branch of the
`select` is the identity on the queue. -/

def receiveQueueCapacity : Nat := 16

/-- The non-blocking enqueue of `readLoop`: append when the channel buffer
has room, otherwise drop the new message and leave the queue unchanged. -/
def enqueueReceive (q : List (List Nat)) (msg : List Nat) : List (List Nat) :=
  if q.length < receiveQueueCapacity then q ++ [msg] else q

/-! ## Rendezvous lookup (spec §4.A; caller `waitForICEInfo` in part_000)

The connection manager of part_000 calls a three-argument
`lookupICE(serverAddr, targetID, fromID)` and distinguishes the error types
`rateLimitError` and `declineError`. backend/rendezvous.go only contains an
older two-argument variant without the `from_id` field and without the 403
case, and `declineError` plus the three-argument definition are absent from
the sources; only their callers are present. -/

/-- Request body of `POST /lookup` for the three-argument lookup.
Modelled from the spec: the `/lookup` request carries
`{id: targetId, from_id: fromId}` (the two-argument variant in
backend/rendezvous.go sends only `{id}`). -/
structure LookupRequestBody where
  id : String
  from_id : String
deriving Repr, DecidableEq

/-- The request body built by the three-argument lookup. -/
def lookupRequestBody (targetID fromID : String) : LookupRequestBody :=
  { id := targetID, from_id := fromID }

/-- Outcome of one rendezvous `/lookup` call as classified by the client. -/
inductive LookupResult where
  | found (info : IceInfo)
  | notFound
  | rateLimited
  | declined
  | httpError (status : Nat)
  | netError
deriving Repr, DecidableEq

/-- Status mapping of the three-argument `lookupICE`.
Modelled from the spec: `lookupICE(serverAddr, targetID, fromID)` is missing
from the sources (only its caller `waitForICEInfo` in part_000 and the
older two-argument variant exist); per spec §4.A the status map is
200 → `(info, true)`, 404 → `(_, false)`, 429 → `rate_limited`,
403 → `declined`, anything else an error. The argument is the HTTP status
and decoded body of the response. -/
def lookupICE (status : Nat) (body : IceInfo) : LookupResult :=
  if status = 200 then .found body
  else if status = 404 then .notFound
  else if status = 429 then .rateLimited
  else if status = 403 then .declined
  else .httpError status

/-! ## Lookup polling loop (part_000, `waitForICEInfo`)

Constants from part_000: `iceConnectTimeout = 2 * time.Minute`,
`iceLookupPollInterval = 1 * time.Second`, `rateLimitBackoff = 3 * time.Second`.
(The older variant in connection_manager.go uses a 20-second
`iceConnectTimeout` and aborts on every lookup error; part_000 supersedes it
and is the variant the specification describes.)

Time is modelled in whole seconds: the loop guard `time.Now().Before(deadline)`
becomes `elapsed < budget`, and the two sleeps advance `elapsed` by the
poll interval and the back-off respectively. `results n` is the outcome of
the n-th `/lookup` call. -/

def iceConnectTimeoutSec : Nat := 120

def iceLookupPollIntervalSec : Nat := 1

def rateLimitBackoffSec : Nat := 3

/-- Final outcome of `waitForICEInfo`. -/
inductive WaitResult where
  | success (info : IceInfo)
  | declinedErr
  | lookupErr (status : Nat)
  | netErr
  | timeout
deriving Repr, DecidableEq

/-- `waitForICEInfo` from part_000 (lines 270-290): while the deadline has
not passed, look up the target; a rate-limit error sleeps the back-off and
retries, a decline error and any other error abort, a hit returns the info,
a miss sleeps the poll interval and retries; an expired deadline yields the
timeout error. -/
def waitForICEInfo (results : Nat → LookupResult) (n elapsed budget : Nat) :
    WaitResult :=
  if budget ≤ elapsed then .timeout
  else
    match results n with
    | .found info => .success info
    | .rateLimited => waitForICEInfo results (n + 1) (elapsed + rateLimitBackoffSec) budget
    | .declined => .declinedErr
    | .httpError status => .lookupErr status
    | .netError => .netErr
    | .notFound => waitForICEInfo results (n + 1) (elapsed + iceLookupPollIntervalSec) budget
termination_by budget - elapsed
decreasing_by
  all_goals simp [rateLimitBackoffSec, iceLookupPollIntervalSec]; omega

/-! ## Responder-side identity handshake (part_005, `readLine`,
`handshakeAccept`, `handleIncoming`)

`raw` is the byte stream the dialer sent on the first incoming stream,
modelled as characters (the protocol lines are ASCII). -/

def identityLimit : Nat := 64

/-- `bufio.Reader.ReadString('\n')`: everything up to and including the
first newline, or the whole input when it ends first (the EOF case, which
`readLine` tolerates). -/
def takeToNewline : List Char → List Char
  | [] => []
  | c :: rest => if c = '\n' then [c] else c :: takeToNewline rest

/-- The trimmed line `readLine` extracts: at most `identityLimit + 2` bytes
are read (the `io.LimitedReader`), then one line is taken and
`strings.TrimSpace`d. -/
def readLineRaw (raw : List Char) : String :=
  String.mk (trimChars (takeToNewline (raw.take (identityLimit + 2))))

/-- `readLine` from part_005 (lines 304-316): the trimmed line, or the
`identity too long` error when it still exceeds `identityLimit`. -/
def readLine (raw : List Char) : Except String String :=
  let line := readLineRaw raw
  if identityLimit < line.length then .error "identity too long" else .ok line

/-- `handshakeAccept` from part_005 (lines 272-294): read one line; an empty
identity is answered with `busy` on the stream and rejected with
`missing identity`; otherwise `accept` is written and the line is the peer
id. The first component is the reply written to the handshake stream. -/
def handshakeAccept (raw : List Char) : Option String × Except String String :=
  match readLine raw with
  | .error e => (none, .error e)
  | .ok line =>
    if line = "" then (some "busy", .error "missing identity")
    else (some "accept", .ok line)

/-- Observable outcome of `handleIncoming`: what was written on the
handshake stream, whether (and with which reason) the QUIC connection was
closed, and the session fields afterwards. -/
structure IncomingOutcome where
  streamReply : Option String
  connCloseReason : Option String
  connected : Bool
  peerId : String
deriving Repr, DecidableEq

/-- `handleIncoming` from part_005 (lines 137-165) as a function of the
session occupancy, the current peer id and the received bytes: an occupied
session closes the incoming connection with reason `busy` without touching
any stream; otherwise the session is marked connected, the handshake runs,
a handshake error closes the connection with reason `handshake failed` and
resets `Connected` (leaving `PeerID` untouched), and success records the
received line as `PeerID`. -/
def handleIncoming (connected : Bool) (peerId : String) (raw : List Char) :
    IncomingOutcome :=
  if connected then ⟨none, some "busy", connected, peerId⟩
  else
    match handshakeAccept raw with
    | (reply, .error _) => ⟨reply, some "handshake failed", false, peerId⟩
    | (reply, .ok p) => ⟨reply, none, true, p⟩

/-! ## Session close (part_005, `Close`)

`Close` takes the session mutex, returns nil at once when not connected,
and otherwise clears `conn`, `Connected` and `PeerID` and closes the QUIC
connection with the graceful application code 0 and reason
`session closed`. part_005 carries no close callback, but both connection
managers install one through `session.SetOnClose`; the invocation counter
below is therefore modelled from the spec. -/

/-- Session state as `Close` sees it. `onCloseFired` counts invocations of
the close callback; modelled from the spec: `ChuteSession.SetOnClose` and
the `onClose` field are missing from the sources (only the installing
callers in the connection managers exist), and the spec has `Close` invoke
the configured callback exactly once, on the connected-to-closed
transition. -/
structure CloseState where
  connected : Bool
  peerId : String
  hasConn : Bool
  onCloseFired : Nat
deriving Repr, DecidableEq

/-- Outcome of one `Close` call: the returned error, the reason the QUIC
connection was closed with (application code 0) if it was, and the state
afterwards. -/
structure CloseOutcome where
  err : Option String
  connCloseReason : Option String
  state : CloseState
deriving Repr, DecidableEq

/-- `Close` from part_005 (lines 107-124), with the spec-modelled `onClose`
invocation on the transition. -/
def closeSession (s : CloseState) : CloseOutcome :=
  if s.connected then
    ⟨none, if s.hasConn then some "session closed" else none,
      ⟨false, "", false, s.onCloseFired + 1⟩⟩
  else ⟨none, none, s⟩

/-- Repeated `Close` calls. -/
def closeIter : Nat → CloseState → CloseState
  | 0, s => s
  | n + 1, s => closeIter n (closeSession s).state

/-! ## Session state machine (part_005)

One state per point where the session mutex is free; each step is one
mutex-guarded critical section of a session operation. `Close` and
`handleDisconnect` check only `Connected` — there is no guard against an
in-flight accept, and the session is already exposed during the accept
handshake window (`waitForSession` returns as soon as `IsConnected()` is
true), so they can run in the middle of `handleIncoming`. The ghost flags
`accepting` and `dialing` track one in-flight responder accept and one
in-flight dial (past their first critical sections, handshake pending);
tracking one of each under-approximates the interleavings, and the
relation is used only to exhibit reachable states, never to bound them. -/

/-- The session operations of part_005 whose critical sections mutate the
session fields. -/
inductive SessionOp where
  | dialCheck
  | dialFinish
  | dialAbort
  | closeSeq
  | disconnectSeq
  | acceptFirst
  | acceptFinish
  | acceptAbort
deriving Repr, DecidableEq

/-- Publicly observable session fields plus the ghost in-flight flags. -/
structure SessionState where
  connected : Bool
  peerId : String
  hasConn : Bool
  accepting : Bool
  dialing : Bool
deriving Repr, DecidableEq

/-- `NewChuteSession`: not connected, empty peer id, no QUIC connection. -/
def initialSession : SessionState :=
  ⟨false, "", false, false, false⟩

/-- One critical section of a session operation, from part_005:
`dialCheck` is the busy check of `connectWithContext` (lines 73-79) and
`dialFinish` its final critical section (lines 95-99), which installs
`PeerID` and `Connected` together, without re-checking `Connected` (the
manager hands in an id it has checked non-empty); `dialAbort` is a failing
dial, which touches no session fields. `closeSeq` is `Close` (lines
107-124) and `disconnectSeq` is `handleDisconnect` (lines 323-339): both
require only `Connected = true` and clear `Connected`, `PeerID` and the
connection together — neither is guarded against an in-flight accept or
dial. `acceptFirst` is the first critical section of `handleIncoming`
(lines 138-146), which flips `Connected` and installs the connection
before any peer id is known; `acceptFinish` is its success path (lines
158-160), which records `PeerID` unconditionally, without re-checking
`Connected`; `acceptAbort` is its handshake-error reset (lines 150-155),
which clears `Connected` and the connection but leaves `PeerID`
untouched. -/
inductive SessionStep : SessionOp → SessionState → SessionState → Prop
  | dialCheck (s : SessionState) (hc : s.connected = false)
      (hd : s.dialing = false) :
      SessionStep .dialCheck s ⟨false, s.peerId, s.hasConn, s.accepting, true⟩
  | dialFinish (s : SessionState) (id : String) (hid : id ≠ "")
      (hd : s.dialing = true) :
      SessionStep .dialFinish s ⟨true, id, true, s.accepting, false⟩
  | dialAbort (s : SessionState) (hd : s.dialing = true) :
      SessionStep .dialAbort s ⟨s.connected, s.peerId, s.hasConn, s.accepting, false⟩
  | closeSeq (s : SessionState) (hc : s.connected = true) :
      SessionStep .closeSeq s ⟨false, "", false, s.accepting, s.dialing⟩
  | disconnectSeq (s : SessionState) (hc : s.connected = true) :
      SessionStep .disconnectSeq s ⟨false, "", false, s.accepting, s.dialing⟩
  | acceptFirst (s : SessionState) (hc : s.connected = false)
      (ha : s.accepting = false) :
      SessionStep .acceptFirst s ⟨true, s.peerId, true, true, s.dialing⟩
  | acceptFinish (s : SessionState) (p : String) (hp : p ≠ "")
      (ha : s.accepting = true) :
      SessionStep .acceptFinish s ⟨s.connected, p, s.hasConn, false, s.dialing⟩
  | acceptAbort (s : SessionState) (ha : s.accepting = true) :
      SessionStep .acceptAbort s ⟨false, s.peerId, false, false, s.dialing⟩

/-- States reachable from the fresh session by any interleaving of
critical sections. -/
inductive ReachableSession : SessionState → Prop
  | init : ReachableSession initialSession
  | step {op : SessionOp} {s t : SessionState} (hs : ReachableSession s)
      (h : SessionStep op s t) : ReachableSession t

/-! ## Connection-manager attempt (connection_manager.go / part_000,
`Connect`, `ConnectWithPeerInfo`, `createICEAgent`, `startICE`, `closeICE`)

One outbound attempt is determined by which step fails first (if any).
The agent created by the attempt carries the fresh identifier `aid`;
`agentClosed` records whether `agent.Close()` was called on it, and `mgr`
is the manager's `iceAgent` slot afterwards. `ConnectWithPeerInfo` runs the
same chain minus the intent and lookup stages. The intent send cannot be a
first failure: its error is logged and the attempt proceeds. -/

/-- The fallible steps of an outbound attempt, in execution order.
`parseUrl` and `newAgent` fail before an agent exists; `creds`, `gather`
(inside `createICEAgent`), `register` and `lookup` fail before `startICE`
installs the agent in the manager slot; the remaining stages are inside
`startICE`, after `m.setICEAgent(agent)`. -/
inductive ConnectStage where
  | parseUrl
  | newAgent
  | creds
  | gather
  | register
  | lookup
  | setRemoteCreds
  | unmarshalCandidate
  | addCandidate
  | dialAccept
  | endpoint
  | sessionHandshake
  | waitSession
deriving Repr, DecidableEq

/-- Stages whose failure happens before `startICE` runs `m.setICEAgent`. -/
def stageBeforeStartICE : ConnectStage → Bool
  | .parseUrl => true
  | .newAgent => true
  | .creds => true
  | .gather => true
  | .register => true
  | .lookup => true
  | _ => false

/-- Stages whose failure happens before `createICEAgent` returns an agent. -/
def stageBeforeAgent : ConnectStage → Bool
  | .parseUrl => true
  | .newAgent => true
  | _ => false

/-- The manager state the attempt touches: the `iceAgent` slot, holding an
agent identifier when occupied. -/
structure MgrState where
  iceAgent : Option Nat
deriving Repr, DecidableEq

/-- Observable outcome of one `Connect`/`ConnectWithPeerInfo` attempt. -/
structure AttemptResult where
  ok : Bool
  agentCreated : Bool
  agentClosed : Bool
  mgr : MgrState
deriving Repr, DecidableEq

/-- One attempt of `Connect` (part_000 lines 52-78 with `startICE` lines
166-235; the connection_manager.go variant has the same close discipline),
as a function of the first failing stage (`none` when every step succeeds)
and the manager state. Every failure after agent creation runs
`_ = agent.Close()`; failures inside `startICE` happen after
`m.setICEAgent(agent)` and none of them clears the slot. -/
def connectAttempt (aid : Nat) (firstFailure : Option ConnectStage)
    (m : MgrState) : AttemptResult :=
  match firstFailure with
  | some stage =>
    if stageBeforeAgent stage then ⟨false, false, false, m⟩
    else if stageBeforeStartICE stage then ⟨false, true, true, m⟩
    else ⟨false, true, true, ⟨some aid⟩⟩
  | none => ⟨true, true, false, ⟨some aid⟩⟩

/-! ## Helper lemmas -/

theorem isDigit_not_whitespace {c : Char} (h : c.isDigit = true) :
    c.isWhitespace = false := by
  simp [Char.isDigit] at h
  obtain ⟨h1, h2⟩ := h
  refine Bool.eq_false_iff.mpr ?_
  intro hw
  simp [Char.isWhitespace] at hw
  rcases hw with ((h' | h') | h') | h' <;> rw [h'] at h1 <;> revert h1 <;> decide

theorem isDigit_ne_space {c : Char} (h : c.isDigit = true) : (c != ' ') = true := by
  simp [Char.isDigit] at h
  obtain ⟨h1, _⟩ := h
  simp only [bne_iff_ne, ne_eq]
  intro heq
  rw [heq] at h1
  revert h1
  decide

theorem enqueueReceive_foldl_le (msgs : List (List Nat)) (q : List (List Nat))
    (hq : q.length ≤ receiveQueueCapacity) :
    (msgs.foldl enqueueReceive q).length ≤ receiveQueueCapacity := by
  induction msgs generalizing q with
  | nil => simpa using hq
  | cons msg rest ih =>
    apply ih
    unfold enqueueReceive
    split
    · simpa using by omega
    · exact hq

/-! ## Claim theorems -/

/-- C2: role election is symmetric and deterministic: for distinct ids
exactly one of the two peers is the initiator, the lexicographically lesser
id dials and the greater accepts, and the single predicate
`localId < peerId` determines both the ICE role and the stream-session
role. -/
theorem role_election_symmetric (a b : String) (hab : a ≠ b) :
    (isInitiator a b = !isInitiator b a)
    ∧ (iceRole a b = .dial ↔ a < b)
    ∧ (iceRole a b = .accept ↔ b < a)
    ∧ (isInitiator a b = true ↔ iceRole a b = .dial) := by
  rcases lt_trichotomy a b with hlt | heq | hgt
  · have hnb : ¬ b < a := not_lt_of_gt hlt
    simp [isInitiator, iceRole, hlt, hnb]
  · exact absurd heq hab
  · have hna : ¬ a < b := not_lt_of_gt hgt
    simp [isInitiator, iceRole, hgt, hna]

theorem role_election_symmetric_witness :
    isInitiator "111111111" "222222222" = !isInitiator "222222222" "111111111" :=
  (role_election_symmetric "111111111" "222222222" (by decide)).1

/-- C3: the rendezvous lookup maps 200 to a hit, 404 to a clean miss,
429 to the distinguished rate-limit error, 403 to the distinguished
decline error and everything else to an error, and its request body
carries both the target id and the caller's id. -/
theorem lookupICE_status_map (info : IceInfo) (targetID fromID : String)
    (status : Nat)
    (hs : status ≠ 200 ∧ status ≠ 404 ∧ status ≠ 429 ∧ status ≠ 403) :
    lookupICE 200 info = .found info
    ∧ lookupICE 404 info = .notFound
    ∧ lookupICE 429 info = .rateLimited
    ∧ lookupICE 403 info = .declined
    ∧ lookupICE status info = .httpError status
    ∧ (lookupRequestBody targetID fromID).id = targetID
    ∧ (lookupRequestBody targetID fromID).from_id = fromID := by
  obtain ⟨h1, h2, h3, h4⟩ := hs
  refine ⟨rfl, rfl, rfl, rfl, ?_, rfl, rfl⟩
  simp [lookupICE, h1, h2, h3, h4]

theorem lookupICE_status_map_witness :
    lookupICE 500 ⟨"222222222", "u", "p", []⟩ = .httpError 500 :=
  (lookupICE_status_map ⟨"222222222", "u", "p", []⟩ "222222222" "111111111" 500
    (by decide)).2.2.2.2.1

/-- C7: the receive queue has fixed capacity 16 and never exceeds it;
enqueueing into a full queue drops the arriving message and leaves the
queue unchanged (the non-blocking send), so the read loop is never blocked
by a full queue. -/
theorem receiveQueue_bounded (q : List (List Nat)) (msg : List Nat)
    (hq : q.length ≤ receiveQueueCapacity) :
    receiveQueueCapacity = 16
    ∧ (enqueueReceive q msg).length ≤ receiveQueueCapacity
    ∧ (q.length = receiveQueueCapacity → enqueueReceive q msg = q)
    ∧ (q.length < receiveQueueCapacity → enqueueReceive q msg = q ++ [msg])
    ∧ (∀ msgs : List (List Nat),
        (msgs.foldl enqueueReceive q).length ≤ receiveQueueCapacity) := by
  refine ⟨rfl, ?_, ?_, ?_, fun msgs => enqueueReceive_foldl_le msgs q hq⟩
  · unfold enqueueReceive
    split
    · simpa using by omega
    · exact hq
  · intro hfull
    unfold enqueueReceive
    simp [hfull]
  · intro hlt
    unfold enqueueReceive
    simp [hlt]

theorem receiveQueue_bounded_witness :
    enqueueReceive [] [7] = [[7]] := by
  have h := (receiveQueue_bounded [] [7] (by decide)).2.2.2.1 (by decide)
  simpa using h

theorem waitForICEInfo_unfold (results : Nat → LookupResult)
    (n elapsed budget : Nat) :
    waitForICEInfo results n elapsed budget =
      if budget ≤ elapsed then .timeout
      else
        match results n with
        | .found info => .success info
        | .rateLimited =>
            waitForICEInfo results (n + 1) (elapsed + rateLimitBackoffSec) budget
        | .declined => .declinedErr
        | .httpError status => .lookupErr status
        | .netError => .netErr
        | .notFound =>
            waitForICEInfo results (n + 1) (elapsed + iceLookupPollIntervalSec) budget := by
  rw [waitForICEInfo]

/-- C4: the outbound lookup loop polls every second under a 2-minute budget;
a rate-limited lookup backs off 3 seconds and continues, a declined lookup
aborts at once with the declined error, and an exhausted budget yields the
timeout error. -/
theorem waitForICEInfo_poll_spec (results : Nat → LookupResult)
    (n elapsed budget : Nat) (info : IceInfo) (h : elapsed < budget) :
    iceConnectTimeoutSec = 120
    ∧ iceLookupPollIntervalSec = 1
    ∧ rateLimitBackoffSec = 3
    ∧ (results n = .rateLimited →
        waitForICEInfo results n elapsed budget =
          waitForICEInfo results (n + 1) (elapsed + 3) budget)
    ∧ (results n = .declined →
        waitForICEInfo results n elapsed budget = .declinedErr)
    ∧ (results n = .found info →
        waitForICEInfo results n elapsed budget = .success info)
    ∧ (results n = .notFound →
        waitForICEInfo results n elapsed budget =
          waitForICEInfo results (n + 1) (elapsed + 1) budget)
    ∧ (∀ e, budget ≤ e → waitForICEInfo results n e budget = .timeout) := by
  have hnb : ¬ budget ≤ elapsed := by omega
  refine ⟨rfl, rfl, rfl, ?_, ?_, ?_, ?_, ?_⟩
  · intro hr
    rw [waitForICEInfo_unfold, if_neg hnb, hr]
    rfl
  · intro hr
    rw [waitForICEInfo_unfold, if_neg hnb, hr]
  · intro hr
    rw [waitForICEInfo_unfold, if_neg hnb, hr]
  · intro hr
    rw [waitForICEInfo_unfold, if_neg hnb, hr]
    rfl
  · intro e he
    rw [waitForICEInfo_unfold, if_pos he]

theorem waitForICEInfo_poll_spec_witness :
    waitForICEInfo (fun _ => .declined) 0 0 120 = .declinedErr :=
  (waitForICEInfo_poll_spec (fun _ => .declined) 0 0 120 ⟨"", "", "", []⟩
    (by decide)).2.2.2.2.1 rfl

theorem closeIter_of_not_connected (n : Nat) (s : CloseState)
    (hs : s.connected = false) : closeIter n s = s := by
  induction n with
  | zero => rfl
  | succ k ih =>
    have hcs : (closeSession s).state = s := by
      simp [closeSession, hs]
    show closeIter k (closeSession s).state = s
    rw [hcs, ih]

/-- C6: session close is idempotent: a second close returns without error
and changes nothing; close transitions `connected` to false, clears
`peerId`, closes the QUIC connection with the graceful code, and no matter
how often close is called the close callback fires exactly once (and never
on an unconnected session). -/
theorem closeSession_idempotent (s : CloseState) (n : Nat) (hn : 1 ≤ n)
    (hinv : s.connected = false → s.peerId = "") :
    (closeSession s).err = none
    ∧ (closeSession (closeSession s).state).err = none
    ∧ (closeSession s).state.connected = false
    ∧ (closeSession s).state.peerId = ""
    ∧ (s.connected = true → s.hasConn = true →
        (closeSession s).connCloseReason = some "session closed")
    ∧ closeSession (closeSession s).state = ⟨none, none, (closeSession s).state⟩
    ∧ (closeIter n s).onCloseFired =
        s.onCloseFired + (if s.connected then 1 else 0) := by
  by_cases hc : s.connected
  · obtain ⟨k, rfl⟩ : ∃ k, n = k + 1 := ⟨n - 1, by omega⟩
    have hstate : (closeSession s).state = ⟨false, "", false, s.onCloseFired + 1⟩ := by
      simp [closeSession, hc]
    refine ⟨by simp [closeSession, hc], ?_, by rw [hstate], by rw [hstate], ?_, ?_, ?_⟩
    · rw [hstate]; simp [closeSession]
    · intro _ hconn; simp [closeSession, hc, hconn]
    · rw [hstate]; simp [closeSession]
    · show (closeIter k (closeSession s).state).onCloseFired = _
      rw [hstate, closeIter_of_not_connected k _ rfl]
      simp [hc]
  · have hc' : s.connected = false := by simpa using hc
    have hpe := hinv hc'
    simp [closeSession, hc', hpe, closeIter_of_not_connected n s hc']

theorem closeSession_idempotent_witness :
    (closeSession ⟨true, "222222222", true, 0⟩).connCloseReason =
      some "session closed" :=
  (closeSession_idempotent ⟨true, "222222222", true, 0⟩ 1 (by decide)
    (by intro h; exact absurd h (by decide))).2.2.2.2.1 rfl rfl

/-- C5 (amended): after reading one trimmed line from the first stream:
an occupied session closes the incoming QUIC connection with reason `busy`
without replying on any stream; an empty identity is answered with `busy`
on the stream and rejected; a line still exceeding 64 bytes after trimming
is rejected with the `identity too long` error and the connection is
closed; otherwise the responder replies `accept`, records the line as
`PeerID`, and the session stays connected. -/
theorem handleIncoming_spec (peerId0 : String) (raw : List Char) :
    (handleIncoming true peerId0 raw = ⟨none, some "busy", true, peerId0⟩)
    ∧ (readLine raw = .ok "" →
        handleIncoming false peerId0 raw =
          ⟨some "busy", some "handshake failed", false, peerId0⟩)
    ∧ (identityLimit < (readLineRaw raw).length →
        readLine raw = .error "identity too long"
        ∧ handleIncoming false peerId0 raw =
            ⟨none, some "handshake failed", false, peerId0⟩)
    ∧ (∀ p, readLine raw = .ok p → p ≠ "" →
        handleIncoming false peerId0 raw = ⟨some "accept", none, true, p⟩) := by
  refine ⟨rfl, ?_, ?_, ?_⟩
  · intro hline
    simp [handleIncoming, handshakeAccept, hline]
  · intro hlong
    have herr : readLine raw = .error "identity too long" := by
      unfold readLine
      rw [if_pos hlong]
    exact ⟨herr, by simp [handleIncoming, handshakeAccept, herr]⟩
  · intro p hline hp
    simp [handleIncoming, handshakeAccept, hline, hp]

theorem handleIncoming_spec_witness :
    handleIncoming false "" ("222222222\n".data) =
      ⟨some "accept", none, true, "222222222"⟩ :=
  (handleIncoming_spec "" ("222222222\n".data)).2.2.2 "222222222" rfl (by decide)

/-- C5 counterexample: with the session occupied, `handleIncoming` never
writes `busy` (or anything) on a stream; it closes the whole QUIC
connection with reason `busy`, contradicting the claim that the responder
replies `busy` on the handshake stream in this case. -/
theorem handleIncoming_busy_counterexample :
    (handleIncoming true "111111111" ("333333333\n".data)).streamReply = none
    ∧ (handleIncoming true "111111111" ("333333333\n".data)).connCloseReason =
        some "busy" :=
  ⟨rfl, rfl⟩

/-- C1 (amended): the operations pair the updates only partially: the
dial-side connect installs `peerId` together with `connected = true` in its
final critical section, and close and disconnect handling clear `peerId`
together with `connected = false` in a single critical section; the
responder accept pairs neither direction — its first critical section
flips `connected` while `peerId` is untouched, and its success path
records a non-empty `peerId` without re-checking (or changing)
`connected`, so a close landing inside the accept handshake window leaves
a reachable state with `connected = false` and a non-empty `peerId`.
The claimed equivalence `connected ⇔ peerId ≠ ""` therefore fails in both
directions on reachable states. -/
theorem session_peerId_connected :
    (∀ s t : SessionState, SessionStep .closeSeq s t →
        t.connected = false ∧ t.peerId = "")
    ∧ (∀ s t : SessionState, SessionStep .disconnectSeq s t →
        t.connected = false ∧ t.peerId = "")
    ∧ (∀ s t : SessionState, SessionStep .dialFinish s t →
        t.connected = true ∧ t.peerId ≠ "")
    ∧ (∀ s t : SessionState, SessionStep .acceptFirst s t →
        t.connected = true ∧ t.peerId = s.peerId)
    ∧ (∀ s t : SessionState, SessionStep .acceptFinish s t →
        t.connected = s.connected ∧ t.peerId ≠ "")
    ∧ ReachableSession ⟨false, "222222222", false, false, false⟩ := by
  refine ⟨?_, ?_, ?_, ?_, ?_, ?_⟩
  · intro s t h
    cases h with
    | closeSeq s hc => exact ⟨rfl, rfl⟩
  · intro s t h
    cases h with
    | disconnectSeq s hc => exact ⟨rfl, rfl⟩
  · intro s t h
    cases h with
    | dialFinish s id hid hd => exact ⟨rfl, hid⟩
  · intro s t h
    cases h with
    | acceptFirst s hc ha => exact ⟨rfl, rfl⟩
  · intro s t h
    cases h with
    | acceptFinish s p hp ha => exact ⟨rfl, hp⟩
  · have h1 : ReachableSession ⟨true, "", true, true, false⟩ :=
      ReachableSession.step ReachableSession.init
        (SessionStep.acceptFirst initialSession rfl rfl)
    have h2 : ReachableSession ⟨false, "", false, true, false⟩ :=
      ReachableSession.step h1
        (SessionStep.closeSeq ⟨true, "", true, true, false⟩ rfl)
    exact ReachableSession.step h2
      (SessionStep.acceptFinish ⟨false, "", false, true, false⟩ "222222222"
        (by decide) rfl)

theorem session_peerId_connected_witness :
    (SessionState.mk false "" false false false).connected = false
    ∧ (SessionState.mk false "" false false false).peerId = "" :=
  session_peerId_connected.1 ⟨true, "222222222", true, false, false⟩
    ⟨false, "", false, false, false⟩
    (SessionStep.closeSeq ⟨true, "222222222", true, false, false⟩ rfl)

/-- C1 counterexample: the state reached after the first critical section of
`handleIncoming` (responder accept) is observable at the public interface
and has `connected = true` with an empty `peerId`, refuting the claimed
equivalence `connected ⇔ peerId ≠ ""` for reachable states. -/
theorem session_accept_window_counterexample :
    ReachableSession ⟨true, "", true, true, false⟩
    ∧ (SessionState.mk true "" true true false).connected = true
    ∧ (SessionState.mk true "" true true false).peerId = "" := by
  refine ⟨?_, rfl, rfl⟩
  exact ReachableSession.step ReachableSession.init
    (SessionStep.acceptFirst initialSession rfl rfl)

/-- C8 (amended): every failing attempt has closed every ICE agent it
created; a failure before `startICE` leaves the manager's `iceAgent` slot
untouched, but a failure inside `startICE` (after `m.setICEAgent`) leaves
the already-closed agent referenced in the slot — the reference is not
cleared there, though no half-open (unclosed) agent is ever retained. -/
theorem connectAttempt_cleanup (aid : Nat) (stage : ConnectStage)
    (m : MgrState) (hm : m.iceAgent = none) :
    ((connectAttempt aid (some stage) m).ok = false)
    ∧ ((connectAttempt aid (some stage) m).agentCreated = true →
        (connectAttempt aid (some stage) m).agentClosed = true)
    ∧ (stageBeforeStartICE stage = true →
        (connectAttempt aid (some stage) m).mgr.iceAgent = none)
    ∧ (stageBeforeStartICE stage = false →
        (connectAttempt aid (some stage) m).agentClosed = true
        ∧ (connectAttempt aid (some stage) m).mgr = ⟨some aid⟩) := by
  cases stage <;>
    simp [connectAttempt, stageBeforeAgent, stageBeforeStartICE, hm]

theorem connectAttempt_cleanup_witness :
    (connectAttempt 7 (some .register) ⟨none⟩).mgr.iceAgent = none :=
  (connectAttempt_cleanup 7 .register ⟨none⟩ rfl).2.2.1 rfl

/-- C8 counterexample: an attempt that fails at `SetRemoteCredentials`
(inside `startICE`, after `m.setICEAgent`) returns an error with the agent
closed but still referenced by the manager's `iceAgent` slot, refuting the
claim that the reference is cleared on every error return. -/
theorem connectAttempt_retains_closed_agent :
    (connectAttempt 0 (some .setRemoteCreds) ⟨none⟩).ok = false
    ∧ (connectAttempt 0 (some .setRemoteCreds) ⟨none⟩).agentClosed = true
    ∧ (connectAttempt 0 (some .setRemoteCreds) ⟨none⟩).mgr.iceAgent = some 0 :=
  ⟨rfl, rfl, rfl⟩

/-- C9 (amended): both UI-facing connect entry points strip whitespace and
reject an empty sanitized target id; the HTTP UI server's `handleConnect`
additionally rejects a target equal to the client's own id, but the
`App.Connect` binding performs no self check and passes the client's own id
through to the manager. -/
theorem connect_sanitization (clientID raw : String) :
    (sanitizeTargetID raw = "" →
        appConnectCheck clientID raw = .errMissingTarget)
    ∧ (sanitizeTargetID raw ≠ "" →
        appConnectCheck clientID raw = .proceed (sanitizeTargetID raw))
    ∧ (sanitizeTargetID raw = "" →
        handleConnectCheck clientID raw = .badRequestEmpty)
    ∧ (sanitizeTargetID raw ≠ "" → sanitizeTargetID raw = clientID →
        handleConnectCheck clientID raw = .badRequestSelf)
    ∧ (sanitizeTargetID raw ≠ "" → sanitizeTargetID raw ≠ clientID →
        handleConnectCheck clientID raw = .proceed (sanitizeTargetID raw)) := by
  refine ⟨?_, ?_, ?_, ?_, ?_⟩
  · intro h; simp [appConnectCheck, h]
  · intro h; simp [appConnectCheck, h]
  · intro h; simp [handleConnectCheck, h]
  · intro h hself
    have hcne : clientID ≠ "" := fun hc => h (hself.trans hc)
    simp [handleConnectCheck, h, hself, hcne]
  · intro h hself; simp [handleConnectCheck, h, hself]

theorem connect_sanitization_witness :
    appConnectCheck "111111111" " 222 222 222 " = .proceed "222222222" := by
  have h := (connect_sanitization "111111111" " 222 222 222 ").2.1 (by decide)
  simpa using h

/-- C9 counterexample: `App.Connect` handed its own client id proceeds to
`manager.Connect` instead of rejecting it, refuting the claim that the
UI-facing connect command rejects a target id equal to the client's own
id. -/
theorem appConnect_self_not_rejected :
    appConnectCheck "123456789" "123456789" = .proceed "123456789" := by
  decide

theorem list_length_nine (l : List Char) (h : l.length = 9) :
    ∃ a b c d e f g h' i, l = [a, b, c, d, e, f, g, h', i] := by
  rcases l with _ | ⟨a, l⟩
  · simp at h
  rcases l with _ | ⟨b, l⟩
  · simp at h
  rcases l with _ | ⟨c, l⟩
  · simp at h
  rcases l with _ | ⟨d, l⟩
  · simp at h
  rcases l with _ | ⟨e, l⟩
  · simp at h
  rcases l with _ | ⟨f, l⟩
  · simp at h
  rcases l with _ | ⟨g, l⟩
  · simp at h
  rcases l with _ | ⟨h', l⟩
  · simp at h
  rcases l with _ | ⟨i, l⟩
  · simp at h
  rcases l with _ | ⟨j, l⟩
  · exact ⟨a, b, c, d, e, f, g, h', i, rfl⟩
  · simp at h

/-- C10: `formatClientID` groups a 9-character id as three space-separated
triples and leaves every other length unchanged, and for a digit id the
connect sanitization (whitespace removal) recovers the original id from the
formatted form. -/
theorem formatClientID_roundtrip (s : String) (h9 : s.length = 9)
    (hd : ∀ c ∈ s.data, c.isDigit = true) :
    formatClientID s =
      String.mk (s.data.take 3) ++ " " ++ String.mk ((s.data.drop 3).take 3)
        ++ " " ++ String.mk (s.data.drop 6)
    ∧ sanitizeTargetID (formatClientID s) = s
    ∧ (∀ t : String, t.length ≠ 9 → formatClientID t = t) := by
  refine ⟨by simp [formatClientID, h9], ?_, fun t ht => by simp [formatClientID, ht]⟩
  obtain ⟨l⟩ := s
  have h9' : l.length = 9 := h9
  have hd' : ∀ c ∈ l, c.isDigit = true := hd
  obtain ⟨c1, c2, c3, c4, c5, c6, c7, c8, c9, rfl⟩ := list_length_nine l h9'
  have hw1 : c1.isWhitespace = false :=
    isDigit_not_whitespace (hd' c1 (by simp))
  have hw9 : c9.isWhitespace = false :=
    isDigit_not_whitespace (hd' c9 (by simp))
  have hn1 : (c1 != ' ') = true := isDigit_ne_space (hd' c1 (by simp))
  have hn2 : (c2 != ' ') = true := isDigit_ne_space (hd' c2 (by simp))
  have hn3 : (c3 != ' ') = true := isDigit_ne_space (hd' c3 (by simp))
  have hn4 : (c4 != ' ') = true := isDigit_ne_space (hd' c4 (by simp))
  have hn5 : (c5 != ' ') = true := isDigit_ne_space (hd' c5 (by simp))
  have hn6 : (c6 != ' ') = true := isDigit_ne_space (hd' c6 (by simp))
  have hn7 : (c7 != ' ') = true := isDigit_ne_space (hd' c7 (by simp))
  have hn8 : (c8 != ' ') = true := isDigit_ne_space (hd' c8 (by simp))
  have hn9 : (c9 != ' ') = true := isDigit_ne_space (hd' c9 (by simp))
  have hds : formatClientID ⟨[c1, c2, c3, c4, c5, c6, c7, c8, c9]⟩
      = ⟨[c1, c2, c3, ' ', c4, c5, c6, ' ', c7, c8, c9]⟩ := rfl
  rw [hds]
  simp [sanitizeTargetID, trimChars, List.dropWhile_cons, List.filter_cons,
    hw1, hw9, hn1, hn2, hn3, hn4, hn5, hn6, hn7, hn8, hn9]

theorem formatClientID_roundtrip_witness :
    sanitizeTargetID (formatClientID "123456789") = "123456789" :=
  (formatClientID_roundtrip "123456789" (by decide) (by decide)).2.1

end Chute
